import Mathlib

/-!
Verification development for the BROP bridge server
(`src/bridge_server.py`, class `BROPBridgeServer`).

The bridge relays messages between CDP clients, BROP clients and a single
extension agent.  We embed the JSON data model and the message-processing
methods of the server as pure Lean functions: each handler becomes a
function from the server state and the decoded inbound message to the new
server state together with the list of sends it performs (each send is a
destination paired with the JSON value whose serialisation is written to
that destination).
-/

/-- JSON values, as produced by `json.loads`.  Objects keep insertion order,
matching Python dicts; numbers are modelled as integers (every number
occurring in the bridge protocol is integral). -/
inductive JVal where
  | null
  | bool (b : Bool)
  | num (n : Int)
  | str (s : String)
  | arr (xs : List JVal)
  | obj (fields : List (String × JVal))

mutual

/-- Boolean equality on JSON values (Python `==` restricted to decoded JSON). -/
def jbeq : JVal → JVal → Bool
  | .null, .null => true
  | .bool a, .bool b => a == b
  | .num a, .num b => a == b
  | .str a, .str b => a == b
  | .arr xs, .arr ys => jbeqList xs ys
  | .obj xs, .obj ys => jbeqFields xs ys
  | _, _ => false

/-- Pointwise equality of JSON arrays. -/
def jbeqList : List JVal → List JVal → Bool
  | [], [] => true
  | x :: xs, y :: ys => jbeq x y && jbeqList xs ys
  | _, _ => false

/-- Pointwise equality of JSON object field lists. -/
def jbeqFields : List (String × JVal) → List (String × JVal) → Bool
  | [], [] => true
  | (k, v) :: xs, (l, w) :: ys => k == l && jbeq v w && jbeqFields xs ys
  | _, _ => false

end

mutual

theorem jbeq_refl : ∀ a, jbeq a a = true
  | .null => rfl
  | .bool b => by simp [jbeq]
  | .num n => by simp [jbeq]
  | .str s => by simp [jbeq]
  | .arr xs => by simp [jbeq, jbeqList_refl xs]
  | .obj fs => by simp [jbeq, jbeqFields_refl fs]

theorem jbeqList_refl : ∀ xs, jbeqList xs xs = true
  | [] => rfl
  | x :: xs => by simp [jbeqList, jbeq_refl x, jbeqList_refl xs]

theorem jbeqFields_refl : ∀ xs, jbeqFields xs xs = true
  | [] => rfl
  | (k, v) :: xs => by simp [jbeqFields, jbeq_refl v, jbeqFields_refl xs]

end

mutual

theorem jbeq_eq : ∀ a b, jbeq a b = true → a = b
  | .null, .null, _ => rfl
  | .bool a, .bool b, h => by simpa [jbeq] using h
  | .num a, .num b, h => by simpa [jbeq] using h
  | .str a, .str b, h => by simpa [jbeq] using h
  | .arr xs, .arr ys, h => by
      simpa using congrArg JVal.arr (jbeqList_eq xs ys (by simpa [jbeq] using h))
  | .obj xs, .obj ys, h => by
      simpa using congrArg JVal.obj (jbeqFields_eq xs ys (by simpa [jbeq] using h))
  | .null, .bool _, h => by simp [jbeq] at h
  | .null, .num _, h => by simp [jbeq] at h
  | .null, .str _, h => by simp [jbeq] at h
  | .null, .arr _, h => by simp [jbeq] at h
  | .null, .obj _, h => by simp [jbeq] at h
  | .bool _, .null, h => by simp [jbeq] at h
  | .bool _, .num _, h => by simp [jbeq] at h
  | .bool _, .str _, h => by simp [jbeq] at h
  | .bool _, .arr _, h => by simp [jbeq] at h
  | .bool _, .obj _, h => by simp [jbeq] at h
  | .num _, .null, h => by simp [jbeq] at h
  | .num _, .bool _, h => by simp [jbeq] at h
  | .num _, .str _, h => by simp [jbeq] at h
  | .num _, .arr _, h => by simp [jbeq] at h
  | .num _, .obj _, h => by simp [jbeq] at h
  | .str _, .null, h => by simp [jbeq] at h
  | .str _, .bool _, h => by simp [jbeq] at h
  | .str _, .num _, h => by simp [jbeq] at h
  | .str _, .arr _, h => by simp [jbeq] at h
  | .str _, .obj _, h => by simp [jbeq] at h
  | .arr _, .null, h => by simp [jbeq] at h
  | .arr _, .bool _, h => by simp [jbeq] at h
  | .arr _, .num _, h => by simp [jbeq] at h
  | .arr _, .str _, h => by simp [jbeq] at h
  | .arr _, .obj _, h => by simp [jbeq] at h
  | .obj _, .null, h => by simp [jbeq] at h
  | .obj _, .bool _, h => by simp [jbeq] at h
  | .obj _, .num _, h => by simp [jbeq] at h
  | .obj _, .str _, h => by simp [jbeq] at h
  | .obj _, .arr _, h => by simp [jbeq] at h

theorem jbeqList_eq : ∀ xs ys, jbeqList xs ys = true → xs = ys
  | [], [], _ => rfl
  | x :: xs, y :: ys, h => by
      have h1 : jbeq x y = true ∧ jbeqList xs ys = true := by simpa [jbeqList] using h
      rw [jbeq_eq x y h1.1, jbeqList_eq xs ys h1.2]
  | [], _ :: _, h => by simp [jbeqList] at h
  | _ :: _, [], h => by simp [jbeqList] at h

theorem jbeqFields_eq : ∀ xs ys, jbeqFields xs ys = true → xs = ys
  | [], [], _ => rfl
  | (k, v) :: xs, (l, w) :: ys, h => by
      have h1 : (k = l ∧ jbeq v w = true) ∧ jbeqFields xs ys = true := by
        simpa [jbeqFields] using h
      rw [h1.1.1, jbeq_eq v w h1.1.2, jbeqFields_eq xs ys h1.2]
  | [], _ :: _, h => by simp [jbeqFields] at h
  | _ :: _, [], h => by simp [jbeqFields] at h

end

instance : DecidableEq JVal := fun a b =>
  if h : jbeq a b = true then .isTrue (jbeq_eq a b h)
  else .isFalse (fun he => h (he ▸ jbeq_refl a))

/-- A connection handle (an accepted websocket).  The Python code holds these
as opaque `websockets` protocol objects; only identity matters for routing. -/
abbrev Conn := Nat

/-- One performed send: the connection written to, and the JSON value whose
`json.dumps` serialisation is sent on it. -/
abbrev Send := Conn × JVal

/-- Python `dict` lookup on a pending-request map keyed by JSON ids. -/
def dictLookup : List (JVal × Conn) → JVal → Option Conn
  | [], _ => none
  | (k, v) :: rest, key => if k = key then some v else dictLookup rest key

/-- Python `d[key] = value`: replace in place if the key is present
(insertion order preserved), else append. -/
def dictSet : List (JVal × Conn) → JVal → Conn → List (JVal × Conn)
  | [], key, v => [(key, v)]
  | (k, w) :: rest, key, v =>
      if k = key then (key, v) :: rest else (k, w) :: dictSet rest key v

/-- Python `d.pop(key)`: drop the entry for the key. -/
def dictRemove : List (JVal × Conn) → JVal → List (JVal × Conn)
  | [], _ => []
  | (k, w) :: rest, key => if k = key then rest else (k, w) :: dictRemove rest key

/-- First field with the given name in a JSON object's field list. -/
def objFind : List (String × JVal) → String → Option JVal
  | [], _ => none
  | (k, v) :: rest, key => if k = key then some v else objFind rest key

/-- Python `d[key] = value` on a JSON object's field list. -/
def objSet : List (String × JVal) → String → JVal → List (String × JVal)
  | [], key, v => [(key, v)]
  | (k, w) :: rest, key, v =>
      if k = key then (key, v) :: rest else (k, w) :: objSet rest key v

/-- Python `data.get(key, default)` on a decoded JSON value. -/
def jgetD (j : JVal) (key : String) (d : JVal) : JVal :=
  match j with
  | .obj fs => (objFind fs key).getD d
  | _ => d

/-- Python `data.get(key)` (absent field gives `None`). -/
def jget (j : JVal) (key : String) : JVal := jgetD j key .null

/-- Python `data[key] = value` on a decoded JSON object. -/
def jset (j : JVal) (key : String) (v : JVal) : JVal :=
  match j with
  | .obj fs => .obj (objSet fs key v)
  | o => o

/-- Python truthiness of a decoded JSON value (`if x:`). -/
def truthy : JVal → Bool
  | .null => false
  | .bool b => b
  | .num n => n != 0
  | .str s => s != ""
  | .arr xs => !xs.isEmpty
  | .obj fs => !fs.isEmpty

mutual

/-- Python `repr` of a decoded JSON value. -/
def pyRepr : JVal → String
  | .null => "None"
  | .bool true => "True"
  | .bool false => "False"
  | .num n => toString n
  | .str s => "\x27" ++ s ++ "\x27"
  | .arr xs => "[" ++ pyReprList xs ++ "]"
  | .obj fs => "\x7b" ++ pyReprFields fs ++ "\x7d"

/-- Comma-separated `repr`s of the elements of a Python list. -/
def pyReprList : List JVal → String
  | [] => ""
  | [x] => pyRepr x
  | x :: rest => pyRepr x ++ ", " ++ pyReprList rest

/-- Comma-separated `repr`s of the items of a Python dict. -/
def pyReprFields : List (String × JVal) → String
  | [] => ""
  | [(k, v)] => "\x27" ++ k ++ "\x27: " ++ pyRepr v
  | (k, v) :: rest => "\x27" ++ k ++ "\x27: " ++ pyRepr v ++ ", " ++ pyReprFields rest

end

/-- Python `str` of a decoded JSON value: the string itself for strings,
`repr` otherwise (as in `str(error_msg)` and f-string interpolation). -/
def pyStr : JVal → String
  | .str s => s
  | v => pyRepr v

/-- The mutable state of `BROPBridgeServer` (`__init__`): the extension-agent
slot, the two client sets, the two pending-request maps and the id counter. -/
structure BridgeState where
  extension_client : Option Conn
  cdp_clients : List Conn
  brop_clients : List Conn
  pending_cdp_requests : List (JVal × Conn)
  pending_brop_requests : List (JVal × Conn)
  message_counter : Nat
deriving DecidableEq

/-- `BROPBridgeServer.__init__`: no agent, no clients, empty maps, counter 0. -/
def initState : BridgeState :=
  { extension_client := none
    cdp_clients := []
    brop_clients := []
    pending_cdp_requests := []
    pending_brop_requests := []
    message_counter := 0 }

/-- `get_next_message_id`: increment the counter and return `"bridge_<n>"`. -/
def get_next_message_id (s : BridgeState) : BridgeState × JVal :=
  let c := s.message_counter + 1
  ({ s with message_counter := c }, .str ("bridge_" ++ toString c))

/-- `convert_to_cdp_response`: reshape an extension response into the CDP
result / error envelope. -/
def convert_to_cdp_response (extension_response : JVal) : JVal :=
  let message_id := jget extension_response "id"
  if truthy (jgetD extension_response "success" (.bool false)) then
    let result := jgetD extension_response "result" (.obj [])
    .obj [("id", message_id), ("result", result)]
  else
    let error_msg := jgetD extension_response "error" (.str "Unknown error")
    .obj [("id", message_id),
          ("error", .obj [("code", .num (-32000)),
                          ("message", .str (pyStr error_msg))])]

/-- `broadcast_to_cdp_clients`: send the message to every CDP client. -/
def broadcast_to_cdp_clients (s : BridgeState) (message : JVal) : List Send :=
  if s.cdp_clients.isEmpty then []
  else s.cdp_clients.map (fun c => (c, message))

/-- `broadcast_to_brop_clients`: send the message to every BROP client. -/
def broadcast_to_brop_clients (s : BridgeState) (message : JVal) : List Send :=
  if s.brop_clients.isEmpty then []
  else s.brop_clients.map (fun c => (c, message))

/-- `broadcast_extension_event`: allow-listed event kinds are reshaped and
also broadcast to CDP clients; the original event always goes to BROP
clients. -/
def broadcast_extension_event (s : BridgeState) (event_data : JVal) : List Send :=
  let event_type := jget event_data "event_type"
  let cdpSends :=
    if event_type ∈ [JVal.str "console", JVal.str "page_load", JVal.str "navigation"] then
      let cdp_event : JVal :=
        .obj [("method", .str ("Runtime." ++ pyStr event_type)),
              ("params", jgetD event_data "params" (.obj []))]
      broadcast_to_cdp_clients s cdp_event
    else []
  cdpSends ++ broadcast_to_brop_clients s event_data

/-- `process_extension_message`: dispatch an agent message on its `type`
field.  A `response` resolves the pending CDP map first, then the pending
BROP map; an `event` is broadcast; `log` and anything else only log. -/
def process_extension_message (s : BridgeState) (data : JVal) : BridgeState × List Send :=
  let message_type := jget data "type"
  if message_type = JVal.str "response" then
    let request_id := jget data "id"
    match dictLookup s.pending_cdp_requests request_id with
    | some client =>
        ({ s with pending_cdp_requests := dictRemove s.pending_cdp_requests request_id },
         [(client, convert_to_cdp_response data)])
    | none =>
        match dictLookup s.pending_brop_requests request_id with
        | some client =>
            ({ s with pending_brop_requests := dictRemove s.pending_brop_requests request_id },
             [(client, data)])
        | none => (s, [])
  else if message_type = JVal.str "event" then
    (s, broadcast_extension_event s data)
  else if message_type = JVal.str "log" then
    (s, [])
  else
    (s, [])

/-- `process_cdp_message`: with no agent, reply with the fixed-sentinel error;
otherwise track the request and forward a `cdp_command` envelope to the
agent.  A non-object message raises at `data.get` and is dropped. -/
def process_cdp_message (s : BridgeState) (client : Conn) (data : JVal) :
    BridgeState × List Send :=
  match data with
  | .obj _fields =>
    let method := jget data "method"
    let params := jgetD data "params" (.obj [])
    let message_id := jget data "id"
    match s.extension_client with
    | none =>
        (s, [(client,
              .obj [("id", message_id),
                    ("error", .obj [("code", .num (-32000)),
                                    ("message", .str "Chrome extension not connected")])])])
    | some agent =>
        let extension_message : JVal :=
          .obj [("type", .str "cdp_command"), ("id", message_id),
                ("method", method), ("params", params)]
        ({ s with pending_cdp_requests := dictSet s.pending_cdp_requests message_id client },
         [(agent, extension_message)])
  | _ => (s, [])

/-- `process_brop_message`: the counter-backed default id is computed eagerly
(`data.get("id", self.get_next_message_id())`); with no agent, reply with a
synthesized BROP error; otherwise stamp `id` and `type` on the message,
track it and forward it to the agent.  A message that is not an object, or
whose `command` field is present but not an object, raises at the first
`.get` and is dropped. -/
def process_brop_message (s : BridgeState) (client : Conn) (data : JVal) :
    BridgeState × List Send :=
  match data with
  | .obj fields =>
    match (objFind fields "command").getD (.obj []) with
    | .obj _cmdFields =>
      let s1g := get_next_message_id s
      let s1 := s1g.1
      let message_id := (objFind fields "id").getD s1g.2
      match s1.extension_client with
      | none =>
          (s1, [(client,
                 .obj [("id", message_id),
                       ("success", .bool false),
                       ("error", .str "Chrome extension not connected")])])
      | some agent =>
          let data1 := jset (jset data "id" message_id) "type" (.str "brop_command")
          ({ s1 with pending_brop_requests := dictSet s1.pending_brop_requests message_id client },
           [(agent, data1)])
    | _ => (s, [])
  | _ => (s, [])

/-- `handle_extension_client`, accept path (lines 110-118): store the new
connection in the agent slot — silently replacing any previous agent — and
send the one-shot welcome message (`ts` stands for `time.time()`). -/
def handle_extension_client_register (s : BridgeState) (ws : Conn) (ts : Int) :
    BridgeState × List Send :=
  ({ s with extension_client := some ws },
   [(ws, .obj [("type", .str "welcome"),
               ("message", .str "BROP Bridge Server - Extension connected successfully"),
               ("timestamp", .num ts)])])

/-- `handle_extension_client`, `finally` block (line 128): on handler
termination the agent slot is cleared unconditionally — the closing
connection `ws` is not compared against the slot's current occupant. -/
def handle_extension_client_finally (s : BridgeState) (_ws : Conn) : BridgeState :=
  { s with extension_client := none }

theorem dictLookup_dictSet_self (d : List (JVal × Conn)) (k : JVal) (v : Conn) :
    dictLookup (dictSet d k v) k = some v := by
  induction d with
  | nil => simp [dictSet, dictLookup]
  | cons p rest ih =>
      obtain ⟨k1, v1⟩ := p
      by_cases h : k1 = k
      · simp [dictSet, h, dictLookup]
      · simp [dictSet, h, dictLookup, ih]

theorem dictLookup_eq_none_of_not_mem (d : List (JVal × Conn)) (k : JVal)
    (h : k ∉ d.map Prod.fst) : dictLookup d k = none := by
  induction d with
  | nil => rfl
  | cons p rest ih =>
      obtain ⟨k1, v1⟩ := p
      simp only [List.map_cons, List.mem_cons] at h
      push_neg at h
      simp [dictLookup, Ne.symm h.1, ih h.2]

theorem dictLookup_dictRemove_self (d : List (JVal × Conn)) (k : JVal)
    (h : (d.map Prod.fst).Nodup) : dictLookup (dictRemove d k) k = none := by
  induction d with
  | nil => rfl
  | cons p rest ih =>
      obtain ⟨k1, v1⟩ := p
      simp only [List.map_cons, List.nodup_cons] at h
      by_cases hk : k1 = k
      · subst hk
        simpa [dictRemove] using dictLookup_eq_none_of_not_mem rest k1 h.1
      · simp [dictRemove, hk, dictLookup, ih h.2]

theorem objFind_objSet_self (fs : List (String × JVal)) (k : String) (v : JVal) :
    objFind (objSet fs k v) k = some v := by
  induction fs with
  | nil => simp [objSet, objFind]
  | cons p rest ih =>
      obtain ⟨k1, v1⟩ := p
      by_cases h : k1 = k
      · simp [objSet, h, objFind]
      · simp [objSet, h, objFind, ih]

theorem objFind_objSet_ne (fs : List (String × JVal)) (k k2 : String) (v : JVal)
    (h : k2 ≠ k) : objFind (objSet fs k v) k2 = objFind fs k2 := by
  induction fs with
  | nil => simp [objSet, objFind, Ne.symm h]
  | cons p rest ih =>
      obtain ⟨k1, v1⟩ := p
      by_cases h1 : k1 = k
      · subst h1
        simp [objSet, objFind, Ne.symm h]
      · simp [objSet, h1, objFind, ih]

/-- Claim C1: a client request on either endpoint that arrives while no agent
is registered gets exactly one synthesized error reply carrying the request's
id, nothing is sent to any agent connection, and no pending entry is created
in either map. -/
theorem no_agent_error_reply (s : BridgeState) (client : Conn)
    (cfields bfields cmd : List (String × JVal)) (cid bid : JVal)
    (hs : s.extension_client = none)
    (hcid : objFind cfields "id" = some cid)
    (hbid : objFind bfields "id" = some bid)
    (hcmd : (objFind bfields "command").getD (.obj []) = .obj cmd) :
    process_cdp_message s client (.obj cfields)
      = (s, [(client, .obj [("id", cid),
                            ("error", .obj [("code", .num (-32000)),
                                            ("message", .str "Chrome extension not connected")])])])
    ∧ (process_brop_message s client (.obj bfields)).2
      = [(client, .obj [("id", bid), ("success", .bool false),
                        ("error", .str "Chrome extension not connected")])]
    ∧ (process_brop_message s client (.obj bfields)).1.pending_cdp_requests
        = s.pending_cdp_requests
    ∧ (process_brop_message s client (.obj bfields)).1.pending_brop_requests
        = s.pending_brop_requests := by
  refine ⟨?_, ?_, ?_, ?_⟩ <;>
    simp [process_cdp_message, process_brop_message, get_next_message_id,
          jget, jgetD, hs, hcid, hbid, hcmd]

theorem no_agent_error_reply_witness :
    process_cdp_message initState 5
        (.obj [("id", .num 1), ("method", .str "Browser.getVersion"), ("params", .obj [])])
      = (initState,
         [(5, .obj [("id", .num 1),
                    ("error", .obj [("code", .num (-32000)),
                                    ("message", .str "Chrome extension not connected")])])])
    ∧ (process_brop_message initState 5
        (.obj [("id", .num 2), ("command", .obj [("type", .str "click")])])).2
      = [(5, .obj [("id", .num 2), ("success", .bool false),
                   ("error", .str "Chrome extension not connected")])]
    ∧ (process_brop_message initState 5
        (.obj [("id", .num 2), ("command", .obj [("type", .str "click")])])).1.pending_cdp_requests
        = initState.pending_cdp_requests
    ∧ (process_brop_message initState 5
        (.obj [("id", .num 2), ("command", .obj [("type", .str "click")])])).1.pending_brop_requests
        = initState.pending_brop_requests :=
  no_agent_error_reply initState 5 _ _ _ (.num 1) (.num 2) rfl rfl rfl rfl

/-- Claim C2: converting an agent response for a CDP-origin request yields
`{id, result}` (result defaulting to the empty object) when `success` is
`true`, and `{id, error:{code:-32000, message:str(error)}}` when `success` is
`false` or absent; the error code is the fixed sentinel -32000 whatever the
`error` field holds. -/
theorem cdp_response_conversion (resp : JVal) (fields : List (String × JVal))
    (hresp : resp = .obj fields) :
    (objFind fields "success" = some (.bool true) →
      convert_to_cdp_response resp
        = .obj [("id", jget resp "id"), ("result", jgetD resp "result" (.obj []))])
    ∧ (objFind fields "success" = some (.bool false) ∨ objFind fields "success" = none →
      convert_to_cdp_response resp
        = .obj [("id", jget resp "id"),
                ("error", .obj [("code", .num (-32000)),
                                ("message", .str (pyStr (jgetD resp "error"
                                                          (.str "Unknown error"))))])]) := by
  subst hresp
  constructor
  · intro h
    simp [convert_to_cdp_response, jgetD, h, truthy]
  · rintro (h | h) <;> simp [convert_to_cdp_response, jgetD, h, truthy]

theorem cdp_response_conversion_witness :
    (objFind [("id", JVal.num 5), ("success", JVal.bool true),
              ("result", JVal.obj [("frameId", JVal.str "f1")])] "success"
        = some (.bool true) →
      convert_to_cdp_response (.obj [("id", JVal.num 5), ("success", JVal.bool true),
                                     ("result", JVal.obj [("frameId", JVal.str "f1")])])
        = .obj [("id", jget (.obj [("id", JVal.num 5), ("success", JVal.bool true),
                                   ("result", JVal.obj [("frameId", JVal.str "f1")])]) "id"),
                ("result", jgetD (.obj [("id", JVal.num 5), ("success", JVal.bool true),
                                        ("result", JVal.obj [("frameId", JVal.str "f1")])])
                             "result" (.obj []))])
    ∧ (objFind [("id", JVal.num 5), ("success", JVal.bool true),
                ("result", JVal.obj [("frameId", JVal.str "f1")])] "success"
          = some (.bool false)
        ∨ objFind [("id", JVal.num 5), ("success", JVal.bool true),
                   ("result", JVal.obj [("frameId", JVal.str "f1")])] "success" = none →
      convert_to_cdp_response (.obj [("id", JVal.num 5), ("success", JVal.bool true),
                                     ("result", JVal.obj [("frameId", JVal.str "f1")])])
        = .obj [("id", jget (.obj [("id", JVal.num 5), ("success", JVal.bool true),
                                   ("result", JVal.obj [("frameId", JVal.str "f1")])]) "id"),
                ("error", .obj [("code", .num (-32000)),
                                ("message", .str (pyStr (jgetD
                                  (.obj [("id", JVal.num 5), ("success", JVal.bool true),
                                         ("result", JVal.obj [("frameId", JVal.str "f1")])])
                                  "error" (.str "Unknown error"))))])]) :=
  cdp_response_conversion _ _ rfl

/-- State with a CDP request (id 7, client 1) and a BROP request (id 7,
client 2) both outstanding, agent connection 9 registered. -/
def collidingState : BridgeState :=
  { initState with extension_client := some 9,
                   pending_cdp_requests := [(.num 7, 1)],
                   pending_brop_requests := [(.num 7, 2)] }

/-- An agent reply answering the BROP request with id 7. -/
def bropReplySeven : JVal :=
  .obj [("type", .str "response"), ("id", .num 7), ("success", .bool true),
        ("result", .str "brop-answer")]

/-- Claim C3 counterexample: with CDP id 7 and BROP id 7 both outstanding, the
agent's reply to the BROP request is delivered, CDP-reshaped, to the CDP
client (connection 1) and never reaches its own originating BROP client
(connection 2): replies carry no protocol tag and the CDP map is checked
first. -/
theorem brop_reply_misrouted_on_id_collision :
    (process_extension_message collidingState bropReplySeven).2
      = [(1, .obj [("id", .num 7), ("result", .str "brop-answer")])]
    ∧ ∀ sd ∈ (process_extension_message collidingState bropReplySeven).2,
        sd.1 ≠ 2 := by
  decide

/-- Claim C3 as amended: the two protocols keep separate pending maps, but an
agent reply is matched by id only, CDP map first; when the same id is
outstanding in both maps, the first reply for that id is routed (CDP-reshaped)
to the CDP client and the second to the BROP client, regardless of which
request each reply was answering. -/
theorem response_resolution_checks_cdp_first (s : BridgeState) (n : JVal)
    (c1 c2 : Conn) (r1 r2 : JVal)
    (hnodup : (s.pending_cdp_requests.map Prod.fst).Nodup)
    (hc1 : dictLookup s.pending_cdp_requests n = some c1)
    (hc2 : dictLookup s.pending_brop_requests n = some c2)
    (ht1 : jget r1 "type" = .str "response") (hid1 : jget r1 "id" = n)
    (ht2 : jget r2 "type" = .str "response") (hid2 : jget r2 "id" = n) :
    (process_extension_message s r1).2 = [(c1, convert_to_cdp_response r1)]
    ∧ (process_extension_message (process_extension_message s r1).1 r2).2
        = [(c2, r2)] := by
  have h1 : process_extension_message s r1
      = ({ s with pending_cdp_requests := dictRemove s.pending_cdp_requests n },
         [(c1, convert_to_cdp_response r1)]) := by
    simp [process_extension_message, ht1, hid1, hc1]
  refine ⟨by rw [h1], ?_⟩
  rw [h1]
  simp [process_extension_message, ht2, hid2,
        dictLookup_dictRemove_self _ _ hnodup, hc2]

theorem response_resolution_checks_cdp_first_witness :
    (process_extension_message collidingState bropReplySeven).2
      = [(1, convert_to_cdp_response bropReplySeven)]
    ∧ (process_extension_message
        (process_extension_message collidingState bropReplySeven).1
        (.obj [("type", .str "response"), ("id", .num 7), ("success", .bool false),
               ("error", .str "cdp-answer-failed")])).2
      = [(2, .obj [("type", .str "response"), ("id", .num 7), ("success", .bool false),
                   ("error", .str "cdp-answer-failed")])] :=
  response_resolution_checks_cdp_first collidingState (.num 7) 1 2
    bropReplySeven
    (.obj [("type", .str "response"), ("id", .num 7), ("success", .bool false),
           ("error", .str "cdp-answer-failed")])
    (by decide) (by decide) (by decide) (by decide) (by decide) (by decide) (by decide)

/-- State with agent connection 9 registered, a CDP request (id 1) outstanding
for client 10 and a BROP request (id 1) outstanding for client 20. -/
def trackedState : BridgeState :=
  { initState with extension_client := some 9,
                   pending_cdp_requests := [(.num 1, 10)],
                   pending_brop_requests := [(.num 1, 20)] }

/-- Claim C4 counterexample: with CDP id 1 already outstanding for client 10,
forwarding a second CDP request with id 1 from client 11 replaces the stored
origin — the entry becomes (1, 11), so tracking is not a no-op on an existing
(protocol, id). -/
theorem duplicate_id_replaces_origin :
    dictLookup trackedState.pending_cdp_requests (.num 1) = some 10
    ∧ (process_cdp_message trackedState 11
        (.obj [("id", .num 1), ("method", .str "m")])).1.pending_cdp_requests
      = [(.num 1, 11)]
    ∧ dictLookup (process_cdp_message trackedState 11
        (.obj [("id", .num 1), ("method", .str "m")])).1.pending_cdp_requests (.num 1)
      ≠ some 10 := by
  decide

/-- Claim C4 as amended: tracking a pending request whose (protocol, id) is
already present overwrites the map entry — the stored origin connection of
the first request is replaced by the second requester's connection, on both
the CDP and the BROP map (plain dict assignment, no uniqueness check). -/
theorem track_replaces_existing_entry (s : BridgeState) (agent client : Conn)
    (cfields bfields cmd : List (String × JVal)) (cid bid : JVal)
    (hs : s.extension_client = some agent)
    (hcid : objFind cfields "id" = some cid)
    (hbid : objFind bfields "id" = some bid)
    (hcmd : (objFind bfields "command").getD (.obj []) = .obj cmd) :
    (process_cdp_message s client (.obj cfields)).1.pending_cdp_requests
      = dictSet s.pending_cdp_requests cid client
    ∧ dictLookup
        (process_cdp_message s client (.obj cfields)).1.pending_cdp_requests cid
      = some client
    ∧ (process_brop_message s client (.obj bfields)).1.pending_brop_requests
      = dictSet s.pending_brop_requests bid client
    ∧ dictLookup
        (process_brop_message s client (.obj bfields)).1.pending_brop_requests bid
      = some client := by
  refine ⟨?_, ?_, ?_, ?_⟩ <;>
    simp [process_cdp_message, process_brop_message, get_next_message_id,
          jget, jgetD, hs, hcid, hbid, hcmd, dictLookup_dictSet_self]

theorem track_replaces_existing_entry_witness :
    (process_cdp_message trackedState 11
        (.obj [("id", .num 1), ("method", .str "m")])).1.pending_cdp_requests
      = dictSet trackedState.pending_cdp_requests (.num 1) 11
    ∧ dictLookup (process_cdp_message trackedState 11
        (.obj [("id", .num 1), ("method", .str "m")])).1.pending_cdp_requests (.num 1)
      = some 11
    ∧ (process_brop_message trackedState 11
        (.obj [("id", .num 1), ("command", .obj [("type", .str "click")])])).1.pending_brop_requests
      = dictSet trackedState.pending_brop_requests (.num 1) 11
    ∧ dictLookup (process_brop_message trackedState 11
        (.obj [("id", .num 1), ("command", .obj [("type", .str "click")])])).1.pending_brop_requests
        (.num 1)
      = some 11 :=
  track_replaces_existing_entry trackedState 9 11 _ _ _ (.num 1) (.num 1)
    rfl rfl rfl rfl

/-- Claim C5: an agent response whose id resolves to a BROP-origin pending
request (no CDP entry for that id) is forwarded to the originating BROP
client as exactly the object the agent produced — same fields and values, no
reshaping — and the entry is removed from the BROP pending map. -/
theorem brop_response_forwarded_verbatim (s : BridgeState) (data : JVal) (c : Conn)
    (htype : jget data "type" = .str "response")
    (hcdp : dictLookup s.pending_cdp_requests (jget data "id") = none)
    (hbrop : dictLookup s.pending_brop_requests (jget data "id") = some c) :
    (process_extension_message s data).2 = [(c, data)]
    ∧ (process_extension_message s data).1.pending_brop_requests
        = dictRemove s.pending_brop_requests (jget data "id") := by
  constructor <;> simp [process_extension_message, htype, hcdp, hbrop]

theorem brop_response_forwarded_verbatim_witness :
    (process_extension_message
        { initState with extension_client := some 9,
                         pending_brop_requests := [(.num 3, 4)] }
        (.obj [("type", .str "response"), ("id", .num 3), ("success", .bool true),
               ("result", .obj [("html", .str "<p>ok</p>")]), ("extra", .num 42)])).2
      = [(4, .obj [("type", .str "response"), ("id", .num 3), ("success", .bool true),
                   ("result", .obj [("html", .str "<p>ok</p>")]), ("extra", .num 42)])]
    ∧ (process_extension_message
        { initState with extension_client := some 9,
                         pending_brop_requests := [(.num 3, 4)] }
        (.obj [("type", .str "response"), ("id", .num 3), ("success", .bool true),
               ("result", .obj [("html", .str "<p>ok</p>")]), ("extra", .num 42)])).1.pending_brop_requests
      = dictRemove [(.num 3, 4)] (jget (.obj [("type", .str "response"), ("id", .num 3),
                                              ("success", .bool true),
                                              ("result", .obj [("html", .str "<p>ok</p>")]),
                                              ("extra", .num 42)]) "id") :=
  brop_response_forwarded_verbatim _ _ 4 (by decide) (by decide) (by decide)

theorem broadcast_to_cdp_clients_eq_map (s : BridgeState) (m : JVal) :
    broadcast_to_cdp_clients s m = s.cdp_clients.map (fun c => (c, m)) := by
  cases h : s.cdp_clients with
  | nil => simp [broadcast_to_cdp_clients, h]
  | cons a rest => simp [broadcast_to_cdp_clients, h]

theorem broadcast_to_brop_clients_eq_map (s : BridgeState) (m : JVal) :
    broadcast_to_brop_clients s m = s.brop_clients.map (fun c => (c, m)) := by
  cases h : s.brop_clients with
  | nil => simp [broadcast_to_brop_clients, h]
  | cons a rest => simp [broadcast_to_brop_clients, h]

/-- Claim C6: an extension event whose kind is in the allow-list
console/page_load/navigation is sent to every connected CDP client as
`{method: "Runtime." ++ kind, params}` and to every connected BROP client as
the original event object; an event of any other kind goes only to the BROP
clients; the server state is unchanged either way. -/
theorem event_broadcast_routing (s : BridgeState) (event : JVal)
    (htype : jget event "type" = .str "event") :
    (∀ t : String, jget event "event_type" = .str t →
      t ∈ (["console", "page_load", "navigation"] : List String) →
      (process_extension_message s event).2
        = s.cdp_clients.map (fun c =>
            (c, JVal.obj [("method", .str ("Runtime." ++ t)),
                          ("params", jgetD event "params" (.obj []))]))
          ++ s.brop_clients.map (fun b => (b, event)))
    ∧ (jget event "event_type" ∉
          [JVal.str "console", JVal.str "page_load", JVal.str "navigation"] →
      (process_extension_message s event).2
        = s.brop_clients.map (fun b => (b, event)))
    ∧ (process_extension_message s event).1 = s := by
  refine ⟨?_, ?_, ?_⟩
  · intro t het hmem
    simp only [List.mem_cons, List.not_mem_nil, or_false] at hmem
    rcases hmem with h | h | h <;> subst h <;>
      simp [process_extension_message, htype, broadcast_extension_event, het,
            broadcast_to_cdp_clients_eq_map, broadcast_to_brop_clients_eq_map, pyStr]
  · intro hnot
    simp [process_extension_message, htype, broadcast_extension_event, hnot,
          broadcast_to_brop_clients_eq_map]
  · simp [process_extension_message, htype]

/-- State with agent 9, two CDP clients (1, 2) and one BROP client (3). -/
def fanoutState : BridgeState :=
  { initState with extension_client := some 9,
                   cdp_clients := [1, 2],
                   brop_clients := [3] }

/-- A console event from the extension. -/
def consoleEvent : JVal :=
  .obj [("type", .str "event"), ("event_type", .str "console"),
        ("params", .obj [("text", .str "hi")])]

theorem event_broadcast_routing_witness :
    (∀ t : String, jget consoleEvent "event_type" = .str t →
      t ∈ (["console", "page_load", "navigation"] : List String) →
      (process_extension_message fanoutState consoleEvent).2
        = fanoutState.cdp_clients.map (fun c =>
            (c, JVal.obj [("method", .str ("Runtime." ++ t)),
                          ("params", jgetD consoleEvent "params" (.obj []))]))
          ++ fanoutState.brop_clients.map (fun b => (b, consoleEvent)))
    ∧ (jget consoleEvent "event_type" ∉
          [JVal.str "console", JVal.str "page_load", JVal.str "navigation"] →
      (process_extension_message fanoutState consoleEvent).2
        = fanoutState.brop_clients.map (fun b => (b, consoleEvent)))
    ∧ (process_extension_message fanoutState consoleEvent).1 = fanoutState :=
  event_broadcast_routing fanoutState consoleEvent (by decide)

/-- One send attempt (`client.send(message_str)`): either the transport raises
or the message is delivered to that connection. -/
def sendAttempt (fails : Conn → Bool) (message : JVal) (c : Conn) : Except String Send :=
  if fails c then .error "ConnectionClosedError" else .ok (c, message)

/-- Successful result of a send attempt, if any. -/
def exceptOk : Except String Send → Option Send
  | .ok sd => some sd
  | .error _ => none

/-- First raised exception among the gathered send attempts. -/
def firstErr : List (Except String Send) → Option String
  | [] => none
  | .error e :: _ => some e
  | .ok _ :: rest => firstErr rest

/-- Model of `asyncio.gather`: all tasks run to completion independently;
with `return_exceptions=True` the results (exceptions included) are returned
and nothing is raised, without it the first exception propagates to the
caller after the tasks ran. -/
def gatherModel (return_exceptions : Bool) (tasks : List (Except String Send)) :
    Except String (List (Except String Send)) :=
  if return_exceptions then .ok tasks
  else
    match firstErr tasks with
    | some e => .error e
    | none => .ok tasks

/-- `broadcast_to_cdp_clients` with per-connection transport outcomes: the
sends are gathered with `return_exceptions=True`; the delivered messages are
the successful attempts, and any exception is swallowed. -/
def broadcast_to_cdp_clients_exec (s : BridgeState) (message : JVal)
    (fails : Conn → Bool) : Except String (List Send) :=
  if s.cdp_clients.isEmpty then .ok []
  else
    match gatherModel true (s.cdp_clients.map (sendAttempt fails message)) with
    | .ok results => .ok (results.filterMap exceptOk)
    | .error e => .error e

/-- Claim C7: when one client's transport raises during a broadcast, every
other connected client whose transport does not raise still receives the
message, and the broadcast completes without propagating any failure back to
the agent side. -/
theorem broadcast_failure_isolated (s : BridgeState) (message : JVal)
    (fails : Conn → Bool) (k : Conn)
    (hk : k ∈ s.cdp_clients) (hfk : fails k = true) :
    ∃ delivered,
      broadcast_to_cdp_clients_exec s message fails = .ok delivered
      ∧ (∀ c ∈ s.cdp_clients, fails c = false → (c, message) ∈ delivered)
      ∧ (k, message) ∉ delivered := by
  have hne : s.cdp_clients.isEmpty = false := by
    cases h : s.cdp_clients with
    | nil => rw [h] at hk; cases hk
    | cons a rest => rfl
  refine ⟨(s.cdp_clients.map (sendAttempt fails message)).filterMap exceptOk,
          ?_, ?_, ?_⟩
  · simp [broadcast_to_cdp_clients_exec, hne, gatherModel]
  · intro c hc hok
    refine List.mem_filterMap.mpr ⟨.ok (c, message), ?_, rfl⟩
    exact List.mem_map.mpr ⟨c, hc, by simp [sendAttempt, hok]⟩
  · intro hmem
    rcases List.mem_filterMap.mp hmem with ⟨t, ht, hts⟩
    rcases List.mem_map.mp ht with ⟨c, hc, rfl⟩
    by_cases hfc : fails c = true
    · simp [sendAttempt, hfc, exceptOk] at hts
    · simp [sendAttempt, hfc, exceptOk] at hts
      subst hts
      exact hfc hfk

/-- Concrete transport-failure pattern: connection 2's transport raises. -/
def failsTwo : Conn → Bool := fun c => c == 2

theorem broadcast_failure_isolated_witness :
    ∃ delivered,
      broadcast_to_cdp_clients_exec fanoutState consoleEvent failsTwo = .ok delivered
      ∧ (∀ c ∈ fanoutState.cdp_clients, failsTwo c = false →
          (c, consoleEvent) ∈ delivered)
      ∧ ((2 : Conn), consoleEvent) ∉ delivered :=
  broadcast_failure_isolated fanoutState consoleEvent failsTwo 2 (by decide) (by decide)

/-- Claim C8: forwarding a BROP client request to the agent only stamps the
routing envelope — the message sent to the agent is the inbound message with
`type` set to `"brop_command"` and `id` set to the client's id when present,
else to the next value `"bridge_<counter+1>"` of the bridge counter; every
other field (the `command` object included) is passed through verbatim. -/
theorem brop_forward_envelope (s : BridgeState) (agent client : Conn)
    (fields cmd : List (String × JVal))
    (hs : s.extension_client = some agent)
    (hcmd : (objFind fields "command").getD (.obj []) = .obj cmd) :
    ∃ mid,
      (objFind fields "id" = some mid ∨
        (objFind fields "id" = none
          ∧ mid = .str ("bridge_" ++ toString (s.message_counter + 1))))
      ∧ (process_brop_message s client (.obj fields)).2
          = [(agent, jset (jset (.obj fields) "id" mid) "type" (.str "brop_command"))]
      ∧ jget (jset (jset (.obj fields) "id" mid) "type" (.str "brop_command")) "type"
          = .str "brop_command"
      ∧ jget (jset (jset (.obj fields) "id" mid) "type" (.str "brop_command")) "id" = mid
      ∧ ∀ k, k ≠ "id" → k ≠ "type" →
          jget (jset (jset (.obj fields) "id" mid) "type" (.str "brop_command")) k
            = jget (.obj fields) k := by
  have hit : ("id" : String) ≠ "type" := by decide
  have hsend : ∀ mid : JVal,
      jget (jset (jset (.obj fields) "id" mid) "type" (.str "brop_command")) "type"
          = .str "brop_command"
      ∧ jget (jset (jset (.obj fields) "id" mid) "type" (.str "brop_command")) "id" = mid
      ∧ ∀ k, k ≠ "id" → k ≠ "type" →
          jget (jset (jset (.obj fields) "id" mid) "type" (.str "brop_command")) k
            = jget (.obj fields) k := by
    intro mid
    refine ⟨?_, ?_, ?_⟩
    · simp [jget, jgetD, jset, objFind_objSet_self]
    · simp only [jget, jgetD, jset]
      rw [objFind_objSet_ne _ _ _ _ hit, objFind_objSet_self]
      rfl
    · intro k hk1 hk2
      simp only [jget, jgetD, jset]
      rw [objFind_objSet_ne _ _ _ _ hk2, objFind_objSet_ne _ _ _ _ hk1]
  cases hid : objFind fields "id" with
  | some idv =>
      refine ⟨idv, Or.inl rfl, ?_, hsend idv⟩
      simp [process_brop_message, get_next_message_id, hcmd, hid, hs]
  | none =>
      refine ⟨.str ("bridge_" ++ toString (s.message_counter + 1)),
              Or.inr ⟨rfl, rfl⟩, ?_, hsend _⟩
      simp [process_brop_message, get_next_message_id, hcmd, hid, hs]

theorem brop_forward_envelope_witness :
    ∃ mid,
      (objFind [("id", JVal.num 3), ("command", JVal.obj [("type", JVal.str "click"),
                                                          ("selector", JVal.str "#b")])] "id"
          = some mid ∨
        (objFind [("id", JVal.num 3), ("command", JVal.obj [("type", JVal.str "click"),
                                                            ("selector", JVal.str "#b")])] "id"
            = none
          ∧ mid = .str ("bridge_" ++ toString (fanoutState.message_counter + 1))))
      ∧ (process_brop_message fanoutState 4
          (.obj [("id", JVal.num 3), ("command", JVal.obj [("type", JVal.str "click"),
                                                           ("selector", JVal.str "#b")])])).2
          = [(9, jset (jset (.obj [("id", JVal.num 3),
                                   ("command", JVal.obj [("type", JVal.str "click"),
                                                         ("selector", JVal.str "#b")])])
                        "id" mid) "type" (.str "brop_command"))]
      ∧ jget (jset (jset (.obj [("id", JVal.num 3),
                                ("command", JVal.obj [("type", JVal.str "click"),
                                                      ("selector", JVal.str "#b")])])
                     "id" mid) "type" (.str "brop_command")) "type"
          = .str "brop_command"
      ∧ jget (jset (jset (.obj [("id", JVal.num 3),
                                ("command", JVal.obj [("type", JVal.str "click"),
                                                      ("selector", JVal.str "#b")])])
                     "id" mid) "type" (.str "brop_command")) "id" = mid
      ∧ ∀ k, k ≠ "id" → k ≠ "type" →
          jget (jset (jset (.obj [("id", JVal.num 3),
                                  ("command", JVal.obj [("type", JVal.str "click"),
                                                        ("selector", JVal.str "#b")])])
                       "id" mid) "type" (.str "brop_command")) k
            = jget (.obj [("id", JVal.num 3),
                          ("command", JVal.obj [("type", JVal.str "click"),
                                                ("selector", JVal.str "#b")])]) k :=
  brop_forward_envelope fanoutState 9 4 _ _ rfl rfl

/-- Claim C9: termination of an extension-agent handler clears the agent slot
unconditionally — even when the slot meanwhile holds a different, newer agent
connection — so closing a replaced stale agent connection deregisters the
active agent and a subsequent client request gets the agent-absent error. -/
theorem stale_agent_close_clears_slot (s : BridgeState) (stale fresh client : Conn)
    (fields : List (String × JVal)) (idv : JVal)
    (_hs : s.extension_client = some fresh) (_hne : stale ≠ fresh)
    (hid : objFind fields "id" = some idv) :
    (handle_extension_client_finally s stale).extension_client = none
    ∧ process_cdp_message (handle_extension_client_finally s stale) client (.obj fields)
        = (handle_extension_client_finally s stale,
           [(client, .obj [("id", idv),
                           ("error", .obj [("code", .num (-32000)),
                                           ("message", .str "Chrome extension not connected")])])]) := by
  constructor
  · rfl
  · simp [process_cdp_message, handle_extension_client_finally, jget, jgetD, hid]

theorem stale_agent_close_clears_slot_witness :
    (handle_extension_client_finally
        (handle_extension_client_register
          (handle_extension_client_register initState 5 100).1 6 200).1
        5).extension_client = none
    ∧ process_cdp_message
        (handle_extension_client_finally
          (handle_extension_client_register
            (handle_extension_client_register initState 5 100).1 6 200).1
          5)
        7 (.obj [("id", .num 1), ("method", .str "Page.navigate")])
        = (handle_extension_client_finally
            (handle_extension_client_register
              (handle_extension_client_register initState 5 100).1 6 200).1
            5,
           [(7, .obj [("id", .num 1),
                      ("error", .obj [("code", .num (-32000)),
                                      ("message", .str "Chrome extension not connected")])])]) :=
  stale_agent_close_clears_slot _ 5 6 7 _ (.num 1) rfl (by decide) rfl

/-- Claim C10: an extension message whose `type` is none of `response`,
`event`, `log` (including a missing `type` field, read as `None`) is silently
discarded: no send is performed and the whole server state — pending maps,
client sets, agent slot, counter — is unchanged. -/
theorem unknown_extension_message_dropped (s : BridgeState) (data : JVal)
    (h1 : jget data "type" ≠ .str "response")
    (h2 : jget data "type" ≠ .str "event")
    (h3 : jget data "type" ≠ .str "log") :
    process_extension_message s data = (s, []) := by
  simp [process_extension_message, h1, h2, h3]

theorem unknown_extension_message_dropped_witness :
    process_extension_message fanoutState (.obj [("type", .str "ping"), ("id", .num 1)])
      = (fanoutState, []) :=
  unknown_extension_message_dropped fanoutState
    (.obj [("type", .str "ping"), ("id", .num 1)])
    (by decide) (by decide) (by decide)
